import Mathlib

/-!
Shallow embedding of the Brainzy study-assistant core: the in-memory entity
store (`server/storage.ts`, class `MemStorage`) and the spaced-repetition
review computation (`handleDifficultyRating` in the flashcards view).

Conventions of the embedding:
* JavaScript `Map<string, V>` is an association list `StrMap V`; `Map.set`
  replaces in place when the key exists and appends otherwise, `Map.delete`
  removes the entry and reports whether one was removed, `Map.values()`
  enumerates values in insertion order.
* Timestamps (`Date` values / `getTime()`) are `Nat` milliseconds since epoch.
  `0.5 * 24 * 60 * 60 * 1000` is the exact float `43200000`, so all interval
  arithmetic is exact in `Nat`.
* JS falsy-coalescing `x || d` on strings and numbers is explicit
  (`jsOrStr`, `jsOrInt`, ...): `undefined`/`null`/`""`/`0` select the default.
* `Partial<T>` is a record of `Option` fields (`none` = key absent); for a
  nullable column the payload field is `Option (Option _)`
  (`some none` = explicit null). Object spread `{...old, ...patch}` is
  field-wise `patch.f.getD old.f`.
* `randomUUID()` and `new Date()` are nondeterministic inputs, passed as
  explicit `id`/`now` parameters to the operations that consume them.
-/

namespace Brainzy

/-- JS `x || d` for a possibly-absent string: `undefined`, `null` and the
empty string are falsy and select the default. -/
def jsOrStr : Option String → String → String
  | none, d => d
  | some s, d => if s = "" then d else s

/-- JS `x || d` for a possibly-absent number: `undefined`, `null` and `0`
are falsy and select the default. -/
def jsOrInt : Option Int → Int → Int
  | none, d => d
  | some n, d => if n = 0 then d else n

/-- JS `x || null` for a possibly-absent string: the empty string collapses
to null, other strings pass through. -/
def jsOrNullStr : Option String → Option String
  | none => none
  | some s => if s = "" then none else some s

/-- JS `x || null` for a possibly-absent number: `0` collapses to null. -/
def jsOrNullInt : Option Int → Option Int
  | none => none
  | some n => if n = 0 then none else some n

/-- Association-list model of a JS `Map<string, V>`. -/
abbrev StrMap (α : Type) := List (String × α)

/-- `Map.get`: the value at the key, if present. -/
def mapGet {α : Type} : StrMap α → String → Option α
  | [], _ => none
  | (k2, v) :: rest, k => if k2 = k then some v else mapGet rest k

/-- `Map.set`: replace in place when the key exists, append otherwise. -/
def mapSet {α : Type} : StrMap α → String → α → StrMap α
  | [], k, v => [(k, v)]
  | (k2, v2) :: rest, k, v =>
      if k2 = k then (k2, v) :: rest else (k2, v2) :: mapSet rest k v

/-- `Map.delete`: the map with the entry removed, and whether an entry was
actually removed. -/
def mapDelete {α : Type} : StrMap α → String → StrMap α × Bool
  | [], _ => ([], false)
  | (k2, v2) :: rest, k =>
      if k2 = k then (rest, true)
      else
        let r := mapDelete rest k
        ((k2, v2) :: r.1, r.2)

/-- `Array.from(map.values())`: the stored values in insertion order. -/
def mapValues {α : Type} (m : StrMap α) : List α := m.map Prod.snd

theorem mapGet_mapSet_self {α : Type} (m : StrMap α) (k : String) (v : α) :
    mapGet (mapSet m k v) k = some v := by
  induction m with
  | nil => simp [mapSet, mapGet]
  | cons hd tl ih =>
      obtain ⟨k2, v2⟩ := hd
      by_cases hk : k2 = k
      · simp [mapSet, mapGet, hk]
      · simp [mapSet, mapGet, hk, ih]

theorem mapGet_mapSet_ne {α : Type} (m : StrMap α) (k k2 : String) (v : α)
    (h : k2 ≠ k) : mapGet (mapSet m k v) k2 = mapGet m k2 := by
  induction m with
  | nil =>
      simp [mapSet, mapGet]
      exact fun hh => h hh.symm
  | cons hd tl ih =>
      obtain ⟨k3, v3⟩ := hd
      by_cases hk : k3 = k
      · subst hk
        have hne : ¬ k3 = k2 := fun hh => h hh.symm
        simp [mapSet, mapGet, hne]
      · by_cases hk2 : k3 = k2
        · subst hk2
          simp [mapSet, mapGet, hk]
        · simp [mapSet, mapGet, hk, hk2, ih]

theorem mapGet_mapSet_cases {α : Type} (m : StrMap α) (k k2 : String)
    (v w : α) (h : mapGet (mapSet m k v) k2 = some w) :
    w = v ∨ mapGet m k2 = some w := by
  by_cases hk : k2 = k
  · subst hk
    rw [mapGet_mapSet_self] at h
    exact Or.inl (Option.some.inj h).symm
  · rw [mapGet_mapSet_ne m k k2 v hk] at h
    exact Or.inr h

theorem mapDelete_absent {α : Type} (m : StrMap α) (k : String)
    (h : mapGet m k = none) : mapDelete m k = (m, false) := by
  induction m with
  | nil => simp [mapDelete]
  | cons hd tl ih =>
      obtain ⟨k2, v2⟩ := hd
      by_cases hk : k2 = k
      · simp [mapGet, hk] at h
      · simp [mapGet, hk] at h
        simp [mapDelete, hk, ih h]

/-! ## Record types (from `shared/schema.ts`)

Select types (`$inferSelect`): nullable columns are `Option` fields.
Insert types (`z.infer` of the insert schemas): optional fields default to
`none` (key absent). `Partial<T>` payload types: every field optional. -/

structure User where
  id : String
  username : String
  email : String
  password : String
  spotifyAccessToken : Option String
  spotifyRefreshToken : Option String
  createdAt : Option Nat
deriving DecidableEq

structure InsertUser where
  username : String
  email : String
  password : String
  spotifyAccessToken : Option String := none
  spotifyRefreshToken : Option String := none
deriving DecidableEq

structure PartialUser where
  id : Option String := none
  username : Option String := none
  email : Option String := none
  password : Option String := none
  spotifyAccessToken : Option (Option String) := none
  spotifyRefreshToken : Option (Option String) := none
  createdAt : Option (Option Nat) := none
deriving DecidableEq

structure Document where
  id : String
  userId : String
  title : String
  type : String
  originalUrl : Option String
  content : String
  metadata : Option String
  createdAt : Option Nat
deriving DecidableEq

structure InsertDocument where
  userId : String
  title : String
  type : String
  content : String
  originalUrl : Option String := none
  metadata : Option String := none
deriving DecidableEq

structure Note where
  id : String
  userId : String
  documentId : Option String
  title : String
  content : String
  subject : Option String
  tags : Option (List String)
  wordCount : Option Int
  createdAt : Option Nat
  updatedAt : Option Nat
deriving DecidableEq

structure InsertNote where
  userId : String
  title : String
  content : String
  documentId : Option String := none
  subject : Option String := none
  tags : Option (List String) := none
  wordCount : Option Int := none
deriving DecidableEq

structure PartialNote where
  id : Option String := none
  userId : Option String := none
  documentId : Option (Option String) := none
  title : Option String := none
  content : Option String := none
  subject : Option (Option String) := none
  tags : Option (Option (List String)) := none
  wordCount : Option (Option Int) := none
  createdAt : Option (Option Nat) := none
  updatedAt : Option (Option Nat) := none
deriving DecidableEq

structure FlashcardSet where
  id : String
  userId : String
  documentId : Option String
  title : String
  description : Option String
  cardCount : Option Int
  createdAt : Option Nat
deriving DecidableEq

structure InsertFlashcardSet where
  userId : String
  title : String
  documentId : Option String := none
  description : Option String := none
  cardCount : Option Int := none
deriving DecidableEq

structure Flashcard where
  id : String
  setId : String
  question : String
  answer : String
  difficulty : Option String
  lastReviewed : Option Nat
  nextReview : Option Nat
  repetitions : Option Int
  easinessFactor : Option Int
deriving DecidableEq

structure InsertFlashcard where
  setId : String
  question : String
  answer : String
  difficulty : Option String := none
  lastReviewed : Option Nat := none
  nextReview : Option Nat := none
  repetitions : Option Int := none
  easinessFactor : Option Int := none
deriving DecidableEq

structure PartialFlashcard where
  id : Option String := none
  setId : Option String := none
  question : Option String := none
  answer : Option String := none
  difficulty : Option (Option String) := none
  lastReviewed : Option (Option Nat) := none
  nextReview : Option (Option Nat) := none
  repetitions : Option (Option Int) := none
  easinessFactor : Option (Option Int) := none
deriving DecidableEq

structure Quiz where
  id : String
  userId : String
  documentId : Option String
  title : String
  description : Option String
  questions : String
  timeLimit : Option Int
  createdAt : Option Nat
deriving DecidableEq

structure InsertQuiz where
  userId : String
  title : String
  questions : String
  documentId : Option String := none
  description : Option String := none
  timeLimit : Option Int := none
deriving DecidableEq

structure QuizAttempt where
  id : String
  userId : String
  quizId : String
  answers : String
  score : Int
  totalQuestions : Int
  timeSpent : Option Int
  completedAt : Option Nat
deriving DecidableEq

structure InsertQuizAttempt where
  userId : String
  quizId : String
  answers : String
  score : Int
  totalQuestions : Int
  timeSpent : Option Int := none
deriving DecidableEq

structure ChatMessage where
  id : String
  userId : String
  documentId : Option String
  message : String
  response : String
  createdAt : Option Nat
deriving DecidableEq

structure InsertChatMessage where
  userId : String
  message : String
  response : String
  documentId : Option String := none
deriving DecidableEq

/-! ## The in-memory store (`server/storage.ts`, class `MemStorage`)

Each method is embedded with the effects made explicit: the `id` generated
by `randomUUID()` and the `now` of `new Date()` are parameters, and a
method that mutates returns the updated storage alongside its result. -/

structure MemStorage where
  users : StrMap User
  documents : StrMap Document
  notes : StrMap Note
  flashcardSets : StrMap FlashcardSet
  flashcards : StrMap Flashcard
  quizzes : StrMap Quiz
  quizAttempts : StrMap QuizAttempt
  chatMessages : StrMap ChatMessage
deriving DecidableEq

/-- The freshly constructed `MemStorage` (all maps empty). -/
def MemStorage.empty : MemStorage :=
  { users := [], documents := [], notes := [], flashcardSets := []
    flashcards := [], quizzes := [], quizAttempts := []
    chatMessages := [] }

def MemStorage.getUser (s : MemStorage) (id : String) : Option User :=
  mapGet s.users id

def MemStorage.createUser (s : MemStorage) (insertUser : InsertUser)
    (id : String) (now : Nat) : User × MemStorage :=
  let user : User :=
    { id := id
      username := insertUser.username
      email := insertUser.email
      password := insertUser.password
      createdAt := some now
      spotifyAccessToken := none
      spotifyRefreshToken := none }
  (user, { s with users := mapSet s.users id user })

def MemStorage.updateUser (s : MemStorage) (id : String)
    (updates : PartialUser) : Option User × MemStorage :=
  match mapGet s.users id with
  | none => (none, s)
  | some user =>
      let updatedUser : User :=
        { id := updates.id.getD user.id
          username := updates.username.getD user.username
          email := updates.email.getD user.email
          password := updates.password.getD user.password
          spotifyAccessToken :=
            updates.spotifyAccessToken.getD user.spotifyAccessToken
          spotifyRefreshToken :=
            updates.spotifyRefreshToken.getD user.spotifyRefreshToken
          createdAt := updates.createdAt.getD user.createdAt }
      (some updatedUser, { s with users := mapSet s.users id updatedUser })

def MemStorage.getDocument (s : MemStorage) (id : String) : Option Document :=
  mapGet s.documents id

def MemStorage.createDocument (s : MemStorage)
    (insertDocument : InsertDocument) (id : String) (now : Nat) :
    Document × MemStorage :=
  let document : Document :=
    { id := id
      userId := insertDocument.userId
      title := insertDocument.title
      type := insertDocument.type
      content := insertDocument.content
      createdAt := some now
      metadata := jsOrNullStr insertDocument.metadata
      originalUrl := jsOrNullStr insertDocument.originalUrl }
  (document, { s with documents := mapSet s.documents id document })

def MemStorage.deleteDocument (s : MemStorage) (id : String) :
    Bool × MemStorage :=
  let r := mapDelete s.documents id
  (r.2, { s with documents := r.1 })

def MemStorage.getNote (s : MemStorage) (id : String) : Option Note :=
  mapGet s.notes id

def MemStorage.createNote (s : MemStorage) (insertNote : InsertNote)
    (id : String) (now : Nat) : Note × MemStorage :=
  let note : Note :=
    { id := id
      userId := insertNote.userId
      title := insertNote.title
      content := insertNote.content
      createdAt := some now
      updatedAt := some now
      documentId := jsOrNullStr insertNote.documentId
      subject := jsOrNullStr insertNote.subject
      tags := insertNote.tags
      wordCount := some (jsOrInt insertNote.wordCount 0) }
  (note, { s with notes := mapSet s.notes id note })

def MemStorage.updateNote (s : MemStorage) (id : String)
    (updates : PartialNote) (now : Nat) : Option Note × MemStorage :=
  match mapGet s.notes id with
  | none => (none, s)
  | some note =>
      let updatedNote : Note :=
        { id := updates.id.getD note.id
          userId := updates.userId.getD note.userId
          documentId := updates.documentId.getD note.documentId
          title := updates.title.getD note.title
          content := updates.content.getD note.content
          subject := updates.subject.getD note.subject
          tags := updates.tags.getD note.tags
          wordCount := updates.wordCount.getD note.wordCount
          createdAt := updates.createdAt.getD note.createdAt
          updatedAt := some now }
      (some updatedNote, { s with notes := mapSet s.notes id updatedNote })

def MemStorage.deleteNote (s : MemStorage) (id : String) :
    Bool × MemStorage :=
  let r := mapDelete s.notes id
  (r.2, { s with notes := r.1 })

def MemStorage.getFlashcardSet (s : MemStorage) (id : String) :
    Option FlashcardSet :=
  mapGet s.flashcardSets id

def MemStorage.createFlashcardSet (s : MemStorage)
    (insertSet : InsertFlashcardSet) (id : String) (now : Nat) :
    FlashcardSet × MemStorage :=
  let set : FlashcardSet :=
    { id := id
      userId := insertSet.userId
      title := insertSet.title
      createdAt := some now
      documentId := jsOrNullStr insertSet.documentId
      description := jsOrNullStr insertSet.description
      cardCount := some (jsOrInt insertSet.cardCount 0) }
  (set, { s with flashcardSets := mapSet s.flashcardSets id set })

def MemStorage.getFlashcardsBySet (s : MemStorage) (setId : String) :
    List Flashcard :=
  (mapValues s.flashcards).filter (fun card => card.setId == setId)

def MemStorage.createFlashcard (s : MemStorage)
    (insertCard : InsertFlashcard) (id : String) : Flashcard × MemStorage :=
  let card : Flashcard :=
    { id := id
      setId := insertCard.setId
      question := insertCard.question
      answer := insertCard.answer
      difficulty := some (jsOrStr insertCard.difficulty "medium")
      lastReviewed := insertCard.lastReviewed
      nextReview := insertCard.nextReview
      repetitions := some (jsOrInt insertCard.repetitions 0)
      easinessFactor := some (jsOrInt insertCard.easinessFactor 250) }
  (card, { s with flashcards := mapSet s.flashcards id card })

def MemStorage.updateFlashcard (s : MemStorage) (id : String)
    (updates : PartialFlashcard) : Option Flashcard × MemStorage :=
  match mapGet s.flashcards id with
  | none => (none, s)
  | some card =>
      let updatedCard : Flashcard :=
        { id := updates.id.getD card.id
          setId := updates.setId.getD card.setId
          question := updates.question.getD card.question
          answer := updates.answer.getD card.answer
          difficulty := updates.difficulty.getD card.difficulty
          lastReviewed := updates.lastReviewed.getD card.lastReviewed
          nextReview := updates.nextReview.getD card.nextReview
          repetitions := updates.repetitions.getD card.repetitions
          easinessFactor := updates.easinessFactor.getD card.easinessFactor }
      (some updatedCard,
        { s with flashcards := mapSet s.flashcards id updatedCard })

def MemStorage.getQuiz (s : MemStorage) (id : String) : Option Quiz :=
  mapGet s.quizzes id

def MemStorage.createQuiz (s : MemStorage) (insertQuiz : InsertQuiz)
    (id : String) (now : Nat) : Quiz × MemStorage :=
  let quiz : Quiz :=
    { id := id
      userId := insertQuiz.userId
      title := insertQuiz.title
      questions := insertQuiz.questions
      createdAt := some now
      documentId := jsOrNullStr insertQuiz.documentId
      description := jsOrNullStr insertQuiz.description
      timeLimit := jsOrNullInt insertQuiz.timeLimit }
  (quiz, { s with quizzes := mapSet s.quizzes id quiz })

def MemStorage.createQuizAttempt (s : MemStorage)
    (insertAttempt : InsertQuizAttempt) (id : String) (now : Nat) :
    QuizAttempt × MemStorage :=
  let attempt : QuizAttempt :=
    { id := id
      userId := insertAttempt.userId
      quizId := insertAttempt.quizId
      answers := insertAttempt.answers
      score := insertAttempt.score
      totalQuestions := insertAttempt.totalQuestions
      completedAt := some now
      timeSpent := jsOrNullInt insertAttempt.timeSpent }
  (attempt, { s with quizAttempts := mapSet s.quizAttempts id attempt })

def MemStorage.createChatMessage (s : MemStorage)
    (insertMessage : InsertChatMessage) (id : String) (now : Nat) :
    ChatMessage × MemStorage :=
  let message : ChatMessage :=
    { id := id
      userId := insertMessage.userId
      message := insertMessage.message
      response := insertMessage.response
      createdAt := some now
      documentId := jsOrNullStr insertMessage.documentId }
  (message, { s with chatMessages := mapSet s.chatMessages id message })

/-! The filtered-scan (`listBy`) operations: each is
`Array.from(map.values()).filter(r => r.fkField === value)`. A nullable
foreign key (`documentId`) stored as `null` never strict-equals the
string argument, hence the `some` comparison. -/

def MemStorage.getDocumentsByUser (s : MemStorage) (userId : String) :
    List Document :=
  (mapValues s.documents).filter (fun doc => doc.userId == userId)

def MemStorage.getNotesByUser (s : MemStorage) (userId : String) :
    List Note :=
  (mapValues s.notes).filter (fun note => note.userId == userId)

def MemStorage.getNotesByDocument (s : MemStorage) (documentId : String) :
    List Note :=
  (mapValues s.notes).filter (fun note => note.documentId == some documentId)

def MemStorage.getFlashcardSetsByUser (s : MemStorage) (userId : String) :
    List FlashcardSet :=
  (mapValues s.flashcardSets).filter (fun set => set.userId == userId)

def MemStorage.getQuizzesByUser (s : MemStorage) (userId : String) :
    List Quiz :=
  (mapValues s.quizzes).filter (fun quiz => quiz.userId == userId)

def MemStorage.getQuizAttemptsByUser (s : MemStorage) (userId : String) :
    List QuizAttempt :=
  (mapValues s.quizAttempts).filter (fun attempt => attempt.userId == userId)

def MemStorage.getChatMessagesByDocument (s : MemStorage)
    (documentId : String) : List ChatMessage :=
  (mapValues s.chatMessages).filter
    (fun msg => msg.documentId == some documentId)

/-! ## The review scheduler (`handleDifficultyRating` in the flashcards view)

`const nextReview = new Date(now.getTime() + (difficulty === 'easy' ? 3 :
difficulty === 'medium' ? 1 : 0.5) * 24 * 60 * 60 * 1000)` — any value that
is neither `"easy"` nor `"medium"` falls through to the `0.5`-day branch.
All three products are exact in float, so the interval is exact in `Nat`
milliseconds. -/

/-- The review interval in milliseconds selected by the difficulty string:
easy → 3 days, medium → 1 day, anything else → 0.5 days. -/
def intervalMs (difficulty : String) : Nat :=
  if difficulty = "easy" then 259200000
  else if difficulty = "medium" then 86400000
  else 43200000

/-- The `updates` object built by `handleDifficultyRating` (lines 72–82):
`{ difficulty, lastReviewed: now, nextReview,
   repetitions: (card.repetitions || 0) + 1 }`. -/
def handleDifficultyRating (card : Flashcard) (difficulty : String)
    (now : Nat) : PartialFlashcard :=
  { difficulty := some (some difficulty)
    lastReviewed := some (some now)
    nextReview := some (some (now + intervalMs difficulty))
    repetitions := some (some (jsOrInt card.repetitions 0 + 1)) }

/-- `reviewCard` (the spec's name for the review operation): resolve the
card, build the `handleDifficultyRating` updates, persist them through
`updateFlashcard`. A missing card means no mutation. -/
def reviewCard (s : MemStorage) (id : String) (difficulty : String)
    (now : Nat) : Option Flashcard × MemStorage :=
  match mapGet s.flashcards id with
  | none => (none, s)
  | some card =>
      s.updateFlashcard id (handleDifficultyRating card difficulty now)

/-! ## Fixtures for concrete witnesses -/

/-- A freshly generated card: `repetitions = 0`, `lastReviewed = null`. -/
def cardEx : Flashcard :=
  { id := "c1", setId := "s1", question := "q", answer := "a"
    difficulty := some "medium", lastReviewed := none, nextReview := none
    repetitions := some 0, easinessFactor := some 250 }

/-- A store holding exactly `cardEx` under its id. -/
def storeEx : MemStorage :=
  { MemStorage.empty with flashcards := [("c1", cardEx)] }

/-! ## Claims about the review scheduler -/

/-- C1: for a review with difficulty in \x7beasy, medium, hard\x7d at instant
`now`, the stored card ends with `lastReviewed = now`,
`nextReview = now + interval_days * 86400` seconds (3 days for easy, 1 for
medium, 0.5 for hard; times are milliseconds here), and `difficulty`
overwritten with the supplied rating. -/
theorem C1_review_sets_schedule (s : MemStorage) (id : String)
    (card : Flashcard) (d : String) (now : Nat)
    (hcard : mapGet s.flashcards id = some card)
    (hd : d = "easy" ∨ d = "medium" ∨ d = "hard") :
    ∃ c2, (reviewCard s id d now).1 = some c2 ∧
      mapGet (reviewCard s id d now).2.flashcards id = some c2 ∧
      c2.lastReviewed = some now ∧
      c2.difficulty = some d ∧
      c2.nextReview = some (now +
        (if d = "easy" then 3 * 86400 * 1000
         else if d = "medium" then 1 * 86400 * 1000
         else 43200 * 1000)) := by
  rcases hd with h | h | h <;> subst h <;>
    simp [reviewCard, hcard, MemStorage.updateFlashcard,
      handleDifficultyRating, intervalMs, mapGet_mapSet_self]

/-- Witness for C1: `cardEx` (repetitions 0, lastReviewed null) rated
"easy" at 2024-01-01T00:00:00Z (= 1704067200000 ms) ends with
`lastReviewed` at that instant and `nextReview` at 2024-01-04T00:00:00Z
(= 1704326400000 ms). -/
theorem C1_review_sets_schedule_witness :
    mapGet storeEx.flashcards "c1" = some cardEx ∧
    (1704067200000 : Nat) + 3 * 86400 * 1000 = 1704326400000 ∧
    ∃ c2, (reviewCard storeEx "c1" "easy" 1704067200000).1 = some c2 ∧
      mapGet (reviewCard storeEx "c1" "easy" 1704067200000).2.flashcards
        "c1" = some c2 ∧
      c2.lastReviewed = some 1704067200000 ∧
      c2.difficulty = some "easy" ∧
      c2.nextReview = some (1704067200000 +
        (if "easy" = "easy" then 3 * 86400 * 1000
         else if "easy" = "medium" then 1 * 86400 * 1000
         else 43200 * 1000)) :=
  ⟨rfl, by norm_num,
    C1_review_sets_schedule storeEx "c1" cardEx "easy" 1704067200000 rfl
      (Or.inl rfl)⟩

/-- C2: a difficulty value that is neither "easy" nor "medium" is accepted
without rejection and falls through to the hard bucket: the review
computes `nextReview = now + 43200` seconds (0.5 days; milliseconds
here) and still stores the supplied value. -/
theorem C2_unknown_difficulty_falls_through (s : MemStorage) (id : String)
    (card : Flashcard) (d : String) (now : Nat)
    (hcard : mapGet s.flashcards id = some card)
    (h1 : d ≠ "easy") (h2 : d ≠ "medium") :
    ∃ c2, (reviewCard s id d now).1 = some c2 ∧
      c2.nextReview = some (now + 43200 * 1000) ∧
      c2.difficulty = some d := by
  simp [reviewCard, hcard, MemStorage.updateFlashcard,
    handleDifficultyRating, intervalMs, h1, h2]

/-- Witness for C2: rating `cardEx` with the out-of-domain value "banana"
at instant 0 yields a card scheduled 0.5 days out. -/
theorem C2_unknown_difficulty_falls_through_witness :
    mapGet storeEx.flashcards "c1" = some cardEx ∧
    ∃ c2, (reviewCard storeEx "c1" "banana" 0).1 = some c2 ∧
      c2.nextReview = some (0 + 43200 * 1000) ∧
      c2.difficulty = some "banana" :=
  ⟨rfl, C2_unknown_difficulty_falls_through storeEx "c1" cardEx "banana" 0
    rfl (by decide) (by decide)⟩

/-- A sequence of review requests `(card id, difficulty, now)` applied to
the store in order. -/
def applyReviews (s : MemStorage) (rs : List (String × String × Nat)) :
    MemStorage :=
  rs.foldl (fun s2 r => (reviewCard s2 r.1 r.2.1 r.2.2).2) s

/-- The repetition counter of the card stored under `id`, a missing card
or a null counter reading as 0. -/
def repsOf (s : MemStorage) (id : String) : Int :=
  match mapGet s.flashcards id with
  | none => 0
  | some card => card.repetitions.getD 0

theorem jsOrInt_zero (o : Option Int) : jsOrInt o 0 = o.getD 0 := by
  cases o with
  | none => rfl
  | some n =>
      by_cases h : n = 0
      · simp [jsOrInt, h]
      · simp [jsOrInt, h]

theorem repsOf_reviewCard_le (s : MemStorage) (id id2 d : String)
    (now : Nat) : repsOf s id ≤ repsOf (reviewCard s id2 d now).2 id := by
  by_cases hid : id = id2
  · subst hid
    cases hcard : mapGet s.flashcards id with
    | none => simp [reviewCard, hcard]
    | some card =>
        simp [reviewCard, hcard, MemStorage.updateFlashcard, repsOf,
          mapGet_mapSet_self, handleDifficultyRating, jsOrInt_zero]
  · cases hcard : mapGet s.flashcards id2 with
    | none => simp [reviewCard, hcard]
    | some card =>
        simp [reviewCard, hcard, MemStorage.updateFlashcard, repsOf,
          mapGet_mapSet_ne _ _ _ _ hid]

theorem repsOf_applyReviews_le (s : MemStorage)
    (rs : List (String × String × Nat)) (id : String) :
    repsOf s id ≤ repsOf (applyReviews s rs) id := by
  induction rs generalizing s with
  | nil => simp [applyReviews]
  | cons r rest ih =>
      calc repsOf s id ≤ repsOf (reviewCard s r.1 r.2.1 r.2.2).2 id :=
            repsOf_reviewCard_le s id r.1 r.2.1 r.2.2
        _ ≤ repsOf (applyReviews (reviewCard s r.1 r.2.1 r.2.2).2 rest)
              id := ih _
        _ = repsOf (applyReviews s (r :: rest)) id := by
              simp [applyReviews]

/-- C3: a review increments the stored repetition counter by exactly 1
over its prior value (a null counter reading as 0), whatever the supplied
difficulty and the prior one; consequently the counter is monotonically
non-decreasing under any sequence of reviews and never resets. -/
theorem C3_repetitions_increment :
    (∀ (s : MemStorage) (id : String) (card : Flashcard) (d : String)
        (now : Nat), mapGet s.flashcards id = some card →
      ∃ c2, (reviewCard s id d now).1 = some c2 ∧
        mapGet (reviewCard s id d now).2.flashcards id = some c2 ∧
        c2.repetitions = some (card.repetitions.getD 0 + 1)) ∧
    (∀ (s : MemStorage) (rs : List (String × String × Nat)) (id : String),
      repsOf s id ≤ repsOf (applyReviews s rs) id) := by
  constructor
  · intro s id card d now hcard
    simp [reviewCard, hcard, MemStorage.updateFlashcard,
      handleDifficultyRating, mapGet_mapSet_self, jsOrInt_zero]
  · exact fun s rs id => repsOf_applyReviews_le s rs id

/-- Witness for C3: reviewing `cardEx` (counter 0) once yields counter 1,
and a two-review sequence does not decrease the counter. -/
theorem C3_repetitions_increment_witness :
    (∃ c2, (reviewCard storeEx "c1" "hard" 7).1 = some c2 ∧
      mapGet (reviewCard storeEx "c1" "hard" 7).2.flashcards "c1" =
        some c2 ∧
      c2.repetitions = some 1) ∧
    repsOf storeEx "c1" ≤
      repsOf (applyReviews storeEx [("c1", "easy", 1), ("c1", "hard", 2)])
        "c1" := by
  constructor
  · have h := C3_repetitions_increment.1 storeEx "c1" cardEx "hard" 7 rfl
    simpa [cardEx] using h
  · exact C3_repetitions_increment.2 storeEx
      [("c1", "easy", 1), ("c1", "hard", 2)] "c1"

/-! ## Reachability through the core flashcard operations -/

/-- Stores reachable from the fresh store through the two core flashcard
operations named by the claim: creation (any insert payload the schema
admits) and review. -/
inductive Reachable : MemStorage → Prop where
  | empty : Reachable MemStorage.empty
  | create (s : MemStorage) (ins : InsertFlashcard) (id : String) :
      Reachable s → Reachable (s.createFlashcard ins id).2
  | review (s : MemStorage) (id d : String) (now : Nat) :
      Reachable s → Reachable (reviewCard s id d now).2

/-- The scheduling invariant of a card: whenever both timestamps are set,
`nextReview` is strictly after `lastReviewed`. -/
def schedInv (card : Flashcard) : Prop :=
  ∀ lr nr, card.lastReviewed = some lr → card.nextReview = some nr →
    lr < nr

/-- A creation payload the insert schema admits (it omits only `id`) that
carries both timestamps, out of order. -/
def badInsert : InsertFlashcard :=
  { setId := "s1", question := "q", answer := "a"
    lastReviewed := some 100, nextReview := some 50 }

/-- The card `createFlashcard` builds from `badInsert`. -/
def badCard : Flashcard := (MemStorage.empty.createFlashcard badInsert "c1").1

/-- The store after creating `badInsert`. -/
def badStore : MemStorage := (MemStorage.empty.createFlashcard badInsert "c1").2

/-- Counterexample to C4: a store reachable through creation alone holds a
card with both timestamps set and `nextReview` (50) not after
`lastReviewed` (100) — `createFlashcard` passes the payload timestamps
through unchecked. -/
theorem C4_counterexample :
    Reachable badStore ∧
    mapGet badStore.flashcards "c1" = some badCard ∧
    badCard.lastReviewed = some 100 ∧
    badCard.nextReview = some 50 ∧
    ¬ (100 < 50) := by
  refine ⟨Reachable.create _ _ _ Reachable.empty, ?_, rfl, rfl, by omega⟩
  simp [badStore, badCard, MemStorage.empty, MemStorage.createFlashcard,
    mapSet, mapGet]

/-- Stores reachable when every creation payload that supplies both
timestamps supplies them in order (payloads leaving either null — as the
application routes do — are unrestricted); reviews are unrestricted. -/
inductive ReachableSafe : MemStorage → Prop where
  | empty : ReachableSafe MemStorage.empty
  | create (s : MemStorage) (ins : InsertFlashcard) (id : String) :
      ReachableSafe s →
      (∀ lr nr, ins.lastReviewed = some lr → ins.nextReview = some nr →
        lr < nr) →
      ReachableSafe (s.createFlashcard ins id).2
  | review (s : MemStorage) (id d : String) (now : Nat) :
      ReachableSafe s → ReachableSafe (reviewCard s id d now).2

theorem intervalMs_pos (d : String) : 0 < intervalMs d := by
  unfold intervalMs
  split
  · omega
  · split <;> omega

/-- C4 (amended): in every store reachable through creation payloads whose
supplied timestamps (when both present) are already ordered, and through
arbitrary reviews, every stored card with both `lastReviewed` and
`nextReview` set has `nextReview` strictly after `lastReviewed`. -/
theorem C4_schedule_invariant (s : MemStorage) (h : ReachableSafe s) :
    ∀ k card, mapGet s.flashcards k = some card → schedInv card := by
  induction h with
  | empty =>
      intro k card hget
      simp [MemStorage.empty, mapGet] at hget
  | create s ins id hs hins ih =>
      intro k card hget
      simp only [MemStorage.createFlashcard] at hget
      rcases mapGet_mapSet_cases _ _ _ _ _ hget with hcase | hcase
      · subst hcase
        intro lr nr h1 h2
        exact hins lr nr h1 h2
      · exact ih k card hcase
  | review s id d now hs ih =>
      intro k card hget
      cases hcard : mapGet s.flashcards id with
      | none =>
          rw [reviewCard] at hget
          simp only [hcard] at hget
          exact ih k card hget
      | some card0 =>
          rw [reviewCard] at hget
          simp only [hcard, MemStorage.updateFlashcard] at hget
          rcases mapGet_mapSet_cases _ _ _ _ _ hget with hcase | hcase
          · subst hcase
            intro lr nr h1 h2
            simp only [handleDifficultyRating, Option.getD_some] at h1 h2
            cases h1
            cases h2
            have := intervalMs_pos d
            omega
          · exact ih k card hcase

/-- A creation payload leaving both timestamps null, as the application
routes do. -/
def insEx : InsertFlashcard := { setId := "s1", question := "q", answer := "a" }

/-- The store after creating `insEx` under id `c1`. -/
def safeStore1 : MemStorage := (MemStorage.empty.createFlashcard insEx "c1").2

/-- The store after additionally reviewing `c1` as "easy" at instant 0. -/
def safeStore2 : MemStorage := (reviewCard safeStore1 "c1" "easy" 0).2

/-- The card stored in `safeStore2`. -/
def safeCard : Flashcard :=
  { id := "c1", setId := "s1", question := "q", answer := "a"
    difficulty := some "easy", lastReviewed := some 0
    nextReview := some 259200000, repetitions := some 1
    easinessFactor := some 250 }

/-- Witness for the amended C4: a concrete create-then-review store is
safely reachable and its card satisfies the invariant (0 < 259200000). -/
theorem C4_schedule_invariant_witness :
    ReachableSafe safeStore2 ∧
    mapGet safeStore2.flashcards "c1" = some safeCard ∧
    (0 : Nat) < 259200000 := by
  have hcreate : ReachableSafe safeStore1 :=
    ReachableSafe.create _ _ _ ReachableSafe.empty
      (by intro lr nr h1 h2; simp [insEx] at h1)
  have hr : ReachableSafe safeStore2 :=
    ReachableSafe.review _ _ _ _ hcreate
  have hg : mapGet safeStore2.flashcards "c1" = some safeCard := by
    simp [safeStore2, safeStore1, reviewCard, MemStorage.empty,
      MemStorage.createFlashcard, MemStorage.updateFlashcard, mapSet,
      mapGet, insEx, safeCard, handleDifficultyRating, intervalMs,
      jsOrStr, jsOrInt]
  exact ⟨hr, hg,
    C4_schedule_invariant safeStore2 hr "c1" safeCard hg 0 259200000 rfl
      rfl⟩

/-! ## Claims about the entity store -/

/-- C5: for every entity type with a get-by-id operation (User, Document,
Note, FlashcardSet, Quiz) and every payload, creating a record and
reading it back under the returned record's generated id yields exactly
the record `create` returned. -/
theorem C5_create_then_get (s : MemStorage) (id : String) (now : Nat)
    (iu : InsertUser) (idoc : InsertDocument) (inote : InsertNote)
    (ifs : InsertFlashcardSet) (iq : InsertQuiz) :
    (s.createUser iu id now).2.getUser id = some (s.createUser iu id now).1 ∧
    (s.createDocument idoc id now).2.getDocument id =
      some (s.createDocument idoc id now).1 ∧
    (s.createNote inote id now).2.getNote id =
      some (s.createNote inote id now).1 ∧
    (s.createFlashcardSet ifs id now).2.getFlashcardSet id =
      some (s.createFlashcardSet ifs id now).1 ∧
    (s.createQuiz iq id now).2.getQuiz id =
      some (s.createQuiz iq id now).1 := by
  refine ⟨?_, ?_, ?_, ?_, ?_⟩ <;>
    simp [MemStorage.createUser, MemStorage.getUser,
      MemStorage.createDocument, MemStorage.getDocument,
      MemStorage.createNote, MemStorage.getNote,
      MemStorage.createFlashcardSet, MemStorage.getFlashcardSet,
      MemStorage.createQuiz, MemStorage.getQuiz, mapGet_mapSet_self]

/-- C6: when the id is absent from the store for the given type, `get`
returns none, `update` returns none, `delete` returns false, and
`reviewCard` reports not-found — and none of these calls changes the
store. -/
theorem C6_absent_id_no_mutation (s : MemStorage) (id : String)
    (now : Nat) (pu : PartialUser) (pn : PartialNote)
    (pf : PartialFlashcard) (d : String) :
    (mapGet s.users id = none →
      s.getUser id = none ∧ s.updateUser id pu = (none, s)) ∧
    (mapGet s.documents id = none →
      s.getDocument id = none ∧ s.deleteDocument id = (false, s)) ∧
    (mapGet s.notes id = none →
      s.getNote id = none ∧ s.updateNote id pn now = (none, s) ∧
      s.deleteNote id = (false, s)) ∧
    (mapGet s.flashcardSets id = none → s.getFlashcardSet id = none) ∧
    (mapGet s.quizzes id = none → s.getQuiz id = none) ∧
    (mapGet s.flashcards id = none →
      s.updateFlashcard id pf = (none, s) ∧
      reviewCard s id d now = (none, s)) := by
  refine ⟨fun h => ⟨?_, ?_⟩, fun h => ⟨?_, ?_⟩, fun h => ⟨?_, ?_, ?_⟩,
    fun h => ?_, fun h => ?_, fun h => ⟨?_, ?_⟩⟩
  · simpa [MemStorage.getUser] using h
  · simp [MemStorage.updateUser, h]
  · simpa [MemStorage.getDocument] using h
  · simp [MemStorage.deleteDocument, mapDelete_absent _ _ h]
  · simpa [MemStorage.getNote] using h
  · simp [MemStorage.updateNote, h]
  · simp [MemStorage.deleteNote, mapDelete_absent _ _ h]
  · simpa [MemStorage.getFlashcardSet] using h
  · simpa [MemStorage.getQuiz] using h
  · simp [MemStorage.updateFlashcard, h]
  · simp [reviewCard, h]

/-- Witness for C6: on the empty store with id "zzz", every operation
reports absence and returns the store unchanged. -/
theorem C6_absent_id_no_mutation_witness :
    (MemStorage.empty.getUser "zzz" = none ∧
      MemStorage.empty.updateUser "zzz" {} = (none, MemStorage.empty)) ∧
    (MemStorage.empty.getDocument "zzz" = none ∧
      MemStorage.empty.deleteDocument "zzz" = (false, MemStorage.empty)) ∧
    (MemStorage.empty.getNote "zzz" = none ∧
      MemStorage.empty.updateNote "zzz" {} 9 = (none, MemStorage.empty) ∧
      MemStorage.empty.deleteNote "zzz" = (false, MemStorage.empty)) ∧
    MemStorage.empty.getFlashcardSet "zzz" = none ∧
    MemStorage.empty.getQuiz "zzz" = none ∧
    (MemStorage.empty.updateFlashcard "zzz" {} = (none, MemStorage.empty) ∧
      reviewCard MemStorage.empty "zzz" "easy" 9 =
        (none, MemStorage.empty)) := by
  have h := C6_absent_id_no_mutation MemStorage.empty "zzz" 9 {} {} {}
    "easy"
  exact ⟨h.1 rfl, h.2.1 rfl, h.2.2.1 rfl, h.2.2.2.1 rfl, h.2.2.2.2.1 rfl,
    h.2.2.2.2.2 rfl⟩

/-- A stored note with `updatedAt = 0`. -/
def noteEx : Note :=
  { id := "n1", userId := "u1", documentId := none, title := "t"
    content := "old", subject := none, tags := none, wordCount := some 3
    createdAt := some 0, updatedAt := some 0 }

/-- A store holding exactly `noteEx`. -/
def noteStore : MemStorage :=
  { MemStorage.empty with notes := [("n1", noteEx)] }

/-- A partial update containing only the `content` field. -/
def contentOnly : PartialNote := { content := some "new" }

/-- `noteEx` after `updateNote` with `contentOnly` at instant 5. -/
def noteEx2 : Note := { noteEx with content := "new", updatedAt := some 5 }

/-- Counterexample to C7: updating a note with a partial containing only
`content` also changes `updatedAt` (refreshed to the update instant), so
not every other field retains its prior value. -/
theorem C7_counterexample :
    contentOnly.content = some "new" ∧
    contentOnly.updatedAt = none ∧
    (noteStore.updateNote "n1" contentOnly 5).1 = some noteEx2 ∧
    mapGet (noteStore.updateNote "n1" contentOnly 5).2.notes "n1" =
      some noteEx2 ∧
    noteEx2.content = "new" ∧
    noteEx2.updatedAt = some 5 ∧
    noteEx.updatedAt = some 0 ∧
    noteEx2.updatedAt ≠ noteEx.updatedAt := by
  refine ⟨rfl, rfl, ?_, ?_, rfl, rfl, rfl, by simp [noteEx2, noteEx]⟩ <;>
    simp [noteStore, MemStorage.empty, MemStorage.updateNote, mapGet,
      mapSet, noteEx, noteEx2, contentOnly]

/-- C7 (amended): a partial update shallow-merges over the stored record —
every field present in the partial overwrites wholesale and every absent
field retains its prior value — except that for a type carrying an
`updatedAt` timestamp (Note) the update also refreshes `updatedAt` to the
update instant. -/
theorem C7_partial_update_frame :
    (∀ (s : MemStorage) (id : String) (note : Note) (p : PartialNote)
        (now : Nat), mapGet s.notes id = some note →
      ∃ n2, (s.updateNote id p now).1 = some n2 ∧
        mapGet (s.updateNote id p now).2.notes id = some n2 ∧
        n2.id = p.id.getD note.id ∧
        n2.userId = p.userId.getD note.userId ∧
        n2.documentId = p.documentId.getD note.documentId ∧
        n2.title = p.title.getD note.title ∧
        n2.content = p.content.getD note.content ∧
        n2.subject = p.subject.getD note.subject ∧
        n2.tags = p.tags.getD note.tags ∧
        n2.wordCount = p.wordCount.getD note.wordCount ∧
        n2.createdAt = p.createdAt.getD note.createdAt ∧
        n2.updatedAt = some now) ∧
    (∀ (s : MemStorage) (id : String) (card : Flashcard)
        (p : PartialFlashcard), mapGet s.flashcards id = some card →
      ∃ c2, (s.updateFlashcard id p).1 = some c2 ∧
        mapGet (s.updateFlashcard id p).2.flashcards id = some c2 ∧
        c2.id = p.id.getD card.id ∧
        c2.setId = p.setId.getD card.setId ∧
        c2.question = p.question.getD card.question ∧
        c2.answer = p.answer.getD card.answer ∧
        c2.difficulty = p.difficulty.getD card.difficulty ∧
        c2.lastReviewed = p.lastReviewed.getD card.lastReviewed ∧
        c2.nextReview = p.nextReview.getD card.nextReview ∧
        c2.repetitions = p.repetitions.getD card.repetitions ∧
        c2.easinessFactor = p.easinessFactor.getD card.easinessFactor) ∧
    (∀ (s : MemStorage) (id : String) (u : User) (p : PartialUser),
      mapGet s.users id = some u →
      ∃ u2, (s.updateUser id p).1 = some u2 ∧
        mapGet (s.updateUser id p).2.users id = some u2 ∧
        u2.id = p.id.getD u.id ∧
        u2.username = p.username.getD u.username ∧
        u2.email = p.email.getD u.email ∧
        u2.password = p.password.getD u.password ∧
        u2.spotifyAccessToken =
          p.spotifyAccessToken.getD u.spotifyAccessToken ∧
        u2.spotifyRefreshToken =
          p.spotifyRefreshToken.getD u.spotifyRefreshToken ∧
        u2.createdAt = p.createdAt.getD u.createdAt) := by
  refine ⟨?_, ?_, ?_⟩
  · intro s id note p now hget
    simp [MemStorage.updateNote, hget, mapGet_mapSet_self]
  · intro s id card p hget
    simp [MemStorage.updateFlashcard, hget, mapGet_mapSet_self]
  · intro s id u p hget
    simp [MemStorage.updateUser, hget, mapGet_mapSet_self]

/-- A stored user record. -/
def userEx : User :=
  { id := "u1", username := "alice", email := "a@x", password := "pw"
    spotifyAccessToken := none, spotifyRefreshToken := none
    createdAt := some 0 }

/-- A store holding exactly `userEx`. -/
def userStore : MemStorage :=
  { MemStorage.empty with users := [("u1", userEx)] }

/-- Witness for the amended C7: a concrete content-only note update, a
difficulty-only flashcard update, and an email-only user update, with
all other payload-absent fields preserved. -/
theorem C7_partial_update_frame_witness :
    (∃ n2, (noteStore.updateNote "n1" contentOnly 5).1 = some n2 ∧
      mapGet (noteStore.updateNote "n1" contentOnly 5).2.notes "n1" =
        some n2 ∧
      n2.id = "n1" ∧ n2.userId = "u1" ∧ n2.documentId = none ∧
      n2.title = "t" ∧ n2.content = "new" ∧ n2.subject = none ∧
      n2.tags = none ∧ n2.wordCount = some 3 ∧ n2.createdAt = some 0 ∧
      n2.updatedAt = some 5) ∧
    (∃ c2,
      (storeEx.updateFlashcard "c1"
          { difficulty := some (some "hard") }).1 = some c2 ∧
      mapGet (storeEx.updateFlashcard "c1"
          { difficulty := some (some "hard") }).2.flashcards "c1" =
        some c2 ∧
      c2.id = "c1" ∧ c2.setId = "s1" ∧ c2.question = "q" ∧
      c2.answer = "a" ∧ c2.difficulty = some "hard" ∧
      c2.lastReviewed = none ∧ c2.nextReview = none ∧
      c2.repetitions = some 0 ∧ c2.easinessFactor = some 250) ∧
    (∃ u2, (userStore.updateUser "u1" { email := some "b@x" }).1 =
        some u2 ∧
      mapGet (userStore.updateUser "u1"
          { email := some "b@x" }).2.users "u1" = some u2 ∧
      u2.id = "u1" ∧ u2.username = "alice" ∧ u2.email = "b@x" ∧
      u2.password = "pw" ∧ u2.spotifyAccessToken = none ∧
      u2.spotifyRefreshToken = none ∧ u2.createdAt = some 0) := by
  refine ⟨?_, ?_, ?_⟩
  · have h := C7_partial_update_frame.1 noteStore "n1" noteEx contentOnly
      5 rfl
    simpa [noteEx, contentOnly] using h
  · have h := C7_partial_update_frame.2.1 storeEx "c1" cardEx
      { difficulty := some (some "hard") } rfl
    simpa [cardEx] using h
  · have h := C7_partial_update_frame.2.2 userStore "u1" userEx
      { email := some "b@x" } rfl
    simpa [userEx] using h

/-- A stored flashcard whose record id is "a". -/
def cardA : Flashcard :=
  { id := "a", setId := "s1", question := "q", answer := "ans"
    difficulty := some "medium", lastReviewed := none, nextReview := none
    repetitions := some 0, easinessFactor := some 250 }

/-- A store holding exactly `cardA` under key "a". -/
def cardAStore : MemStorage :=
  { MemStorage.empty with flashcards := [("a", cardA)] }

/-- A partial update containing only an `id` key. -/
def idOnly : PartialFlashcard := { id := some "b" }

/-- `cardA` after the id-bearing update. -/
def cardA2 : Flashcard := { cardA with id := "b" }

/-- Counterexample to C8: an update whose partial argument contains an
`id` key overwrites the stored record's id field — the record stored
under key "a" ends with `id = "b"`. -/
theorem C8_counterexample :
    cardA.id = "a" ∧
    idOnly.id = some "b" ∧
    (cardAStore.updateFlashcard "a" idOnly).1 = some cardA2 ∧
    mapGet (cardAStore.updateFlashcard "a" idOnly).2.flashcards "a" =
      some cardA2 ∧
    cardA2.id = "b" ∧
    cardA2.id ≠ cardA.id := by
  refine ⟨rfl, rfl, ?_, ?_, rfl, by simp [cardA2, cardA]⟩ <;>
    simp [cardAStore, MemStorage.empty, MemStorage.updateFlashcard,
      mapGet, mapSet, cardA, cardA2, idOnly]

/-- C8 (amended): the id field is set at creation to the generated
identifier, and is unchanged by every update whose partial-field argument
does not contain an id key (a partial that does contain one overwrites
the stored record's id field). -/
theorem C8_id_stable :
    (∀ (s : MemStorage) (iu : InsertUser) (id : String) (now : Nat),
      (s.createUser iu id now).1.id = id) ∧
    (∀ (s : MemStorage) (idoc : InsertDocument) (id : String) (now : Nat),
      (s.createDocument idoc id now).1.id = id) ∧
    (∀ (s : MemStorage) (inote : InsertNote) (id : String) (now : Nat),
      (s.createNote inote id now).1.id = id) ∧
    (∀ (s : MemStorage) (ifs : InsertFlashcardSet) (id : String)
        (now : Nat), (s.createFlashcardSet ifs id now).1.id = id) ∧
    (∀ (s : MemStorage) (ins : InsertFlashcard) (id : String),
      (s.createFlashcard ins id).1.id = id) ∧
    (∀ (s : MemStorage) (iq : InsertQuiz) (id : String) (now : Nat),
      (s.createQuiz iq id now).1.id = id) ∧
    (∀ (s : MemStorage) (iqa : InsertQuizAttempt) (id : String)
        (now : Nat), (s.createQuizAttempt iqa id now).1.id = id) ∧
    (∀ (s : MemStorage) (im : InsertChatMessage) (id : String)
        (now : Nat), (s.createChatMessage im id now).1.id = id) ∧
    (∀ (s : MemStorage) (id : String) (card : Flashcard)
        (p : PartialFlashcard), mapGet s.flashcards id = some card →
      p.id = none →
      ∃ c2, (s.updateFlashcard id p).1 = some c2 ∧ c2.id = card.id) ∧
    (∀ (s : MemStorage) (id : String) (u : User) (p : PartialUser),
      mapGet s.users id = some u → p.id = none →
      ∃ u2, (s.updateUser id p).1 = some u2 ∧ u2.id = u.id) ∧
    (∀ (s : MemStorage) (id : String) (n : Note) (p : PartialNote)
        (now : Nat), mapGet s.notes id = some n → p.id = none →
      ∃ n2, (s.updateNote id p now).1 = some n2 ∧ n2.id = n.id) := by
  refine ⟨fun s iu id now => rfl, fun s idoc id now => rfl,
    fun s inote id now => rfl, fun s ifs id now => rfl,
    fun s ins id => rfl, fun s iq id now => rfl,
    fun s iqa id now => rfl, fun s im id now => rfl, ?_, ?_, ?_⟩
  · intro s id card p hget hid
    simp [MemStorage.updateFlashcard, hget, hid]
  · intro s id u p hget hid
    simp [MemStorage.updateUser, hget, hid]
  · intro s id n p now hget hid
    simp [MemStorage.updateNote, hget, hid]

/-- Witness for the amended C8: creation stamps the generated id, and an
id-free partial update leaves the record id unchanged. -/
theorem C8_id_stable_witness :
    (MemStorage.empty.createFlashcard insEx "c9").1.id = "c9" ∧
    (MemStorage.empty.createUser
      { username := "u", email := "e", password := "p" } "u9" 0).1.id =
      "u9" ∧
    (MemStorage.empty.createChatMessage
      { userId := "u", message := "m", response := "r" } "m9" 0).1.id =
      "m9" ∧
    (∃ c2, (cardAStore.updateFlashcard "a"
        { question := some "q2" }).1 = some c2 ∧ c2.id = "a") := by
  obtain ⟨hcu, hcd, hcn, hcfs, hcf, hcq, hcqa, hccm, huf, huu, hun⟩ :=
    C8_id_stable
  refine ⟨hcf MemStorage.empty insEx "c9",
    hcu MemStorage.empty { username := "u", email := "e", password := "p" }
      "u9" 0,
    hccm MemStorage.empty
      { userId := "u", message := "m", response := "r" } "m9" 0, ?_⟩
  have h := huf cardAStore "a" cardA { question := some "q2" } rfl rfl
  simpa [cardA] using h

/-! ## Filtered listing -/

def insS1 : InsertFlashcard := { setId := "S", question := "q1", answer := "a1" }

def insS2 : InsertFlashcard := { setId := "S", question := "q2", answer := "a2" }

def insS3 : InsertFlashcard := { setId := "S", question := "q3", answer := "a3" }

def insT4 : InsertFlashcard := { setId := "T", question := "q4", answer := "a4" }

/-- The store after creating three cards in set "S" and one in set "T". -/
def fourCardStore : MemStorage :=
  ((((MemStorage.empty.createFlashcard insS1 "k1").2.createFlashcard
    insS2 "k2").2.createFlashcard insS3 "k3").2.createFlashcard
    insT4 "k4").2

def cardS1 : Flashcard :=
  { id := "k1", setId := "S", question := "q1", answer := "a1"
    difficulty := some "medium", lastReviewed := none, nextReview := none
    repetitions := some 0, easinessFactor := some 250 }

def cardS2 : Flashcard :=
  { id := "k2", setId := "S", question := "q2", answer := "a2"
    difficulty := some "medium", lastReviewed := none, nextReview := none
    repetitions := some 0, easinessFactor := some 250 }

def cardS3 : Flashcard :=
  { id := "k3", setId := "S", question := "q3", answer := "a3"
    difficulty := some "medium", lastReviewed := none, nextReview := none
    repetitions := some 0, easinessFactor := some 250 }

/-- C9: every filtered-scan operation returns exactly the stored records
of its type whose foreign-key field equals the requested value — every
matching record and no non-matching one (a record whose nullable
`documentId` is null matches no document) — and on a store with three
"S" cards and one "T" card the "S" listing is exactly the three matching
cards. -/
theorem C9_listBy_exact :
    (∀ (s : MemStorage) (v : String) (rec : Document),
      rec ∈ s.getDocumentsByUser v ↔
        rec ∈ mapValues s.documents ∧ rec.userId = v) ∧
    (∀ (s : MemStorage) (v : String) (rec : Note),
      rec ∈ s.getNotesByUser v ↔
        rec ∈ mapValues s.notes ∧ rec.userId = v) ∧
    (∀ (s : MemStorage) (v : String) (rec : Note),
      rec ∈ s.getNotesByDocument v ↔
        rec ∈ mapValues s.notes ∧ rec.documentId = some v) ∧
    (∀ (s : MemStorage) (v : String) (rec : FlashcardSet),
      rec ∈ s.getFlashcardSetsByUser v ↔
        rec ∈ mapValues s.flashcardSets ∧ rec.userId = v) ∧
    (∀ (s : MemStorage) (v : String) (rec : Flashcard),
      rec ∈ s.getFlashcardsBySet v ↔
        rec ∈ mapValues s.flashcards ∧ rec.setId = v) ∧
    (∀ (s : MemStorage) (v : String) (rec : Quiz),
      rec ∈ s.getQuizzesByUser v ↔
        rec ∈ mapValues s.quizzes ∧ rec.userId = v) ∧
    (∀ (s : MemStorage) (v : String) (rec : QuizAttempt),
      rec ∈ s.getQuizAttemptsByUser v ↔
        rec ∈ mapValues s.quizAttempts ∧ rec.userId = v) ∧
    (∀ (s : MemStorage) (v : String) (rec : ChatMessage),
      rec ∈ s.getChatMessagesByDocument v ↔
        rec ∈ mapValues s.chatMessages ∧ rec.documentId = some v) ∧
    fourCardStore.getFlashcardsBySet "S" = [cardS1, cardS2, cardS3] := by
  refine ⟨?_, ?_, ?_, ?_, ?_, ?_, ?_, ?_, ?_⟩
  · intro s v rec
    simp [MemStorage.getDocumentsByUser, List.mem_filter]
  · intro s v rec
    simp [MemStorage.getNotesByUser, List.mem_filter]
  · intro s v rec
    simp [MemStorage.getNotesByDocument, List.mem_filter]
  · intro s v rec
    simp [MemStorage.getFlashcardSetsByUser, List.mem_filter]
  · intro s v rec
    simp [MemStorage.getFlashcardsBySet, List.mem_filter]
  · intro s v rec
    simp [MemStorage.getQuizzesByUser, List.mem_filter]
  · intro s v rec
    simp [MemStorage.getQuizAttemptsByUser, List.mem_filter]
  · intro s v rec
    simp [MemStorage.getChatMessagesByDocument, List.mem_filter]
  · decide

/-- C10: flashcard creation applies the type defaults through JS
falsy-coalescing, so a present-but-falsy supplied value is replaced just
like an omitted one: `easinessFactor = 0` is stored as 250 and an
empty-string `difficulty` as "medium". -/
theorem C10_falsy_defaulting (s : MemStorage) (id : String)
    (ins : InsertFlashcard) :
    (ins.easinessFactor = some 0 →
      (s.createFlashcard ins id).1.easinessFactor = some 250) ∧
    (ins.easinessFactor = none →
      (s.createFlashcard ins id).1.easinessFactor = some 250) ∧
    (ins.difficulty = some "" →
      (s.createFlashcard ins id).1.difficulty = some "medium") ∧
    (ins.difficulty = none →
      (s.createFlashcard ins id).1.difficulty = some "medium") := by
  refine ⟨?_, ?_, ?_, ?_⟩ <;> intro h <;>
    simp [MemStorage.createFlashcard, h, jsOrInt, jsOrStr]

/-- A creation payload explicitly supplying the falsy values 0 and "". -/
def falsyInsert : InsertFlashcard :=
  { setId := "s1", question := "q", answer := "a"
    difficulty := some "", easinessFactor := some 0 }

/-- Witness for C10: creating `falsyInsert` yields easinessFactor 250 and
difficulty "medium". -/
theorem C10_falsy_defaulting_witness :
    (MemStorage.empty.createFlashcard falsyInsert "c1").1.easinessFactor =
      some 250 ∧
    (MemStorage.empty.createFlashcard falsyInsert "c1").1.difficulty =
      some "medium" :=
  ⟨(C10_falsy_defaulting MemStorage.empty "c1" falsyInsert).1 rfl,
    (C10_falsy_defaulting MemStorage.empty "c1" falsyInsert).2.2.1 rfl⟩

end Brainzy
